import Mathlib

/-!
Shallow embedding of the keep-alive monitor core (`src/index.js`): the
prober (`pingUrl`), the probe-outcome mutation (`updateLinkStatus`), the
code generator (`generateCode` plus the retry-until-unique loop of
`/add`), the store (`writeLinksData`), the registry operations behind the
`/add`, `/status/:code`, `/delete/:code` routes, and the background sweep
(`pingAllLinks`).

Modelling conventions:
- Timestamps (`new Date().toISOString()`) are abstract instants modelled
  as `Nat`; each operation receives the current instant as a parameter.
- The network is an input: a probe's outcome (`FetchOutcome`) and its
  wall-clock elapsed time are parameters rather than effects.
- axios's promise semantics are explicit in `axiosGet`: with the default
  `validateStatus` a received HTTP response resolves only when its status
  is in [200, 300); any other response rejects with `error.response`
  carrying the status, and a transport failure rejects with no response.
- The store is the document currently on disk; `fs.writeFileSync` either
  succeeds or throws, modelled by a `Bool` parameter. Each operation
  returns the resulting on-disk document (unchanged when the write
  failed, since the mutated in-memory copy is discarded at request end).
- JS `x || d` on numeric fields that are always numbers in this model
  becomes `if x = 0 then d else x` (0 is the only falsy `Nat`).
- Locale rendering (`formatIST`, the `"...ms"` / `"...%"` suffixes and
  the uptime string of the reporters) is display-only and elided; the
  numeric values behind it are kept. JS doubles are modelled as exact
  rationals (all quantities involved are small integers and ratios).
-/

namespace KeepAlive

/-- Outcome of the underlying HTTP GET, before axios classifies it:
either some HTTP response arrived (with its status code), or no response
arrived at all (timeout, connection refused, DNS failure), carrying the
error message. -/
inductive FetchOutcome where
  | response (status : Nat)
  | noResponse (msg : String)
deriving DecidableEq, Repr

/-- What `await axios.get(url, ...)` produces: a resolved response, or a
rejected promise whose error optionally carries `error.response.status`
and always carries `error.message`. -/
inductive AxiosResult where
  | ok (status : Nat)
  | err (respStatus : Option Nat) (msg : String)
deriving DecidableEq, Repr

/-- axios `get` with the default `validateStatus`: a received response
resolves iff `200 <= status < 300`; a non-2xx response rejects with the
response attached; a transport failure rejects with no response. -/
def axiosGet : FetchOutcome → AxiosResult
  | .response s =>
      if 200 ≤ s ∧ s < 300 then .ok s
      else .err (some s) ("Request failed with status code " ++ toString s)
  | .noResponse m => .err none m

/-- The object returned by `pingUrl` (src/index.js:92-122). -/
structure PingResult where
  success : Bool
  status : String
  responseTime : Nat
  statusCode : Nat
  error : Option String
  timestamp : Nat
deriving DecidableEq, Repr

/-- `pingUrl` (src/index.js:92-122): classify one GET. On a resolved
response: `success:true, status:"online", statusCode:response.status`.
In the catch branch: `success:false, status:"offline",
statusCode:error.response?.status || 0, error:error.message`.
`elapsed` is the measured wall-clock time, `now` the completion
instant. -/
def pingUrl (outcome : FetchOutcome) (elapsed : Nat) (now : Nat) : PingResult :=
  match axiosGet outcome with
  | .ok s =>
      { success := true, status := "online", responseTime := elapsed,
        statusCode := s, error := none, timestamp := now }
  | .err respStatus msg =>
      { success := false, status := "offline", responseTime := elapsed,
        statusCode := respStatus.getD 0, error := some msg, timestamp := now }

/-- One monitored endpoint, the `newLink` shape of src/index.js:192-205.
`lastSuccess` and `lastError` are the optionally-present fields. -/
structure Endpoint where
  code : String
  url : String
  addedAt : Nat
  lastCheck : Nat
  status : String
  responseTime : Nat
  statusCode : Nat
  failCount : Nat
  totalChecks : Nat
  lastSuccess : Option Nat := none
  lastError : Option String := none
deriving DecidableEq, Repr

/-- `updateLinkStatus` (src/index.js:125-144): apply one ping result to a
link in memory. The `pingResult` is the value `await pingUrl(...)`
returned. -/
def updateLinkStatus (linkData : Endpoint) (pingResult : PingResult) : Endpoint :=
  let l1 := { linkData with
    lastCheck := pingResult.timestamp,
    status := pingResult.status,
    responseTime := pingResult.responseTime,
    statusCode := pingResult.statusCode }
  let l2 :=
    if pingResult.success then
      { l1 with lastSuccess := some pingResult.timestamp, failCount := 0 }
    else
      { l1 with failCount := l1.failCount + 1, lastError := pingResult.error }
  { l2 with totalChecks := l2.totalChecks + 1 }

/-- The alphabet of `generateCode` (src/index.js:66). -/
def codeChars : List Char := "ABCDEFGHIJKLMNOPQRSTUVWXYZ0123456789".toList

/-- `generateCode` (src/index.js:63-70): 6 characters, each picked by an
independent uniform draw `Math.floor(Math.random() * chars.length)`;
`r i` is the i-th draw, always in `[0, 36)`. -/
def generateCode (r : Fin 6 → Fin 36) : String :=
  String.mk ((List.finRange 6).map fun i =>
    codeChars.get (Fin.cast (show 36 = codeChars.length by decide) (r i)))

/-- The `do { code = generateCode() } while (data.links.some(l => l.code
=== code))` loop of `/add` (src/index.js:183-186): keep drawing until the
code collides with no existing one. `draws` supplies the successive
random draws; `none` means the supply was exhausted before a fresh code
appeared (in the source the loop would simply keep running). -/
def generateUniqueCode (codes : List String) : List (Fin 6 → Fin 36) → Option String
  | [] => none
  | r :: rest =>
      let code := generateCode r
      if codes.contains code then generateUniqueCode codes rest else some code

/-- Registry-wide aggregate stats (the `stats` object of `links.json`). -/
structure Stats where
  totalLinks : Nat
  activeLinks : Nat
  lastUpdate : Nat
deriving DecidableEq, Repr

/-- The whole persisted document: `{ links: [...], stats: {...} }`. -/
structure LinksData where
  links : List Endpoint
  stats : Stats
deriving DecidableEq, Repr

/-- `data.links.filter(l => l.status === "online").length`, the recomputation
of `activeLinks` shared by `/add`, `/status`, `/delete` and the sweep. -/
def countOnline (links : List Endpoint) : Nat :=
  (links.filter fun l => l.status == "online").length

/-- `writeLinksData` (src/index.js:52-61): stamp `stats.lastUpdate` with
the current time, then write the file. `ok` is whether `fs.writeFileSync`
succeeded; the second component is the document as stamped (what is on
disk when `ok = true`). -/
def writeLinksData (data : LinksData) (now : Nat) (ok : Bool) : Bool × LinksData :=
  (ok, { data with stats := { data.stats with lastUpdate := now } })

/-- JS `String.prototype.toUpperCase()` on the character lists of the
codes involved here (ASCII letters and digits); written over `String.mk`
/ `String.data` so the kernel can evaluate it. -/
def strToUpper (s : String) : String :=
  String.mk (s.data.map Char.toUpper)

/-- A character JS `String.prototype.trim()` strips. -/
def isTrimmed (c : Char) : Bool :=
  c == ' ' || c == '\t' || c == '\n' || c == '\r'

/-- JS `String.prototype.trim()`: drop leading and trailing whitespace;
written over character lists so the kernel can evaluate it. -/
def strTrim (s : String) : String :=
  String.mk (((s.data.dropWhile isTrimmed).reverse.dropWhile isTrimmed).reverse)

/-- `s.startsWith pre`, written over character lists so the kernel can
evaluate it. -/
def strStartsWith (s pre : String) : Bool :=
  s.data.take pre.data.length == pre.data

/-- `isValidUrl` (src/index.js:73-80): `new URL(url)` succeeds and the
protocol is `http:` or `https:`. WHATWG URL parsing is abstracted to: the
string carries an explicit `http://` or `https://` scheme prefix followed
by a nonempty remainder. -/
def isValidUrl (url : String) : Bool :=
  (strStartsWith url "http://" && 7 < url.length) ||
  (strStartsWith url "https://" && 8 < url.length)

/-- Response of `POST /add` (src/index.js:164-221): 400 without a `url`
field, 400 on invalid URL, 409 with the existing code on duplicate, 500
when the save fails, otherwise the success payload. -/
inductive AddResponse where
  | missingUrl
  | invalidUrl
  | duplicate (code : String)
  | persistError
  | ok (code : String) (status : String) (responseTime : Nat)
deriving DecidableEq, Repr

/-- The `newLink` object built by `/add` (src/index.js:192-205) from the
initial ping, with `lastSuccess` / `lastError` present per the outcome. -/
def newLinkOf (code : String) (url : String) (now : Nat) (ping : PingResult) : Endpoint :=
  { code := code, url := url, addedAt := now,
    lastCheck := ping.timestamp, status := ping.status,
    responseTime := ping.responseTime, statusCode := ping.statusCode,
    failCount := if ping.success then 0 else 1,
    totalChecks := 1,
    lastSuccess := if ping.success then some ping.timestamp else none,
    lastError := if ping.success then none else ping.error }

/-- The `POST /add` handler (src/index.js:164-221). `disk` is what
`readLinksData()` returns, `draws` feeds the code-generation loop,
`ping` is the initial probe's result, `saveOk` whether the save succeeds.
Returns `(response, resulting on-disk document, whether a successful save
happened)`; `none` only when the code-generation loop never found a fresh
code within `draws`. -/
def addLink (url : Option String) (disk : LinksData) (draws : List (Fin 6 → Fin 36))
    (ping : PingResult) (now : Nat) (saveOk : Bool) :
    Option (AddResponse × LinksData × Bool) :=
  match url with
  | none => some (.missingUrl, disk, false)
  | some u =>
    if u.isEmpty then some (.missingUrl, disk, false)
    else if !isValidUrl u then some (.invalidUrl, disk, false)
    else
      let normalized := strTrim u
      match disk.links.find? (fun l => l.url == normalized) with
      | some existing => some (.duplicate existing.code, disk, false)
      | none =>
        match generateUniqueCode (disk.links.map fun l => l.code) draws with
        | none => none
        | some code =>
          let newLink := newLinkOf code normalized now ping
          let links2 := disk.links ++ [newLink]
          let stats2 : Stats :=
            { disk.stats with
              totalLinks := links2.length, activeLinks := countOnline links2 }
          let w := writeLinksData { links := links2, stats := stats2 } now saveOk
          if !w.1 then some (.persistError, disk, false)
          else some (.ok code ping.status ping.responseTime, w.2, true)

/-- The success-rate expression shared by `/status` (src/index.js:263)
and `/all` (src/index.js:289):
`Math.round((((totalChecks || 1) - (failCount || 0)) / (totalChecks || 1)) * 100)`.
JS `Math.round` is `⌊x + 1/2⌋`, which is Mathlib's `round`. -/
def successRate (totalChecks failCount : Nat) : Int :=
  let tc : ℚ := if totalChecks = 0 then 1 else totalChecks
  round ((tc - (failCount : ℚ)) / tc * 100)

/-- Modelled from the spec's words, for comparison with `successRate`:
`round((totalChecks - failCount) / totalChecks * 100)` as an integer
percentage, treating `totalChecks` as at least 1 for the division when it
is zero. -/
def specSuccessRate (totalChecks failCount : Nat) : Int :=
  let tc : ℚ := max totalChecks 1
  round ((tc - (failCount : ℚ)) / tc * 100)

/-- The numeric core of the `data` payload of `GET /status/:code`
(src/index.js:249-265); locale-formatted timestamps and the uptime
string are elided. -/
structure StatusData where
  code : String
  url : String
  status : String
  responseTime : Nat
  statusCode : Nat
  lastCheck : Nat
  lastSuccess : Option Nat
  failCount : Nat
  totalChecks : Nat
  successRate : Int
deriving DecidableEq, Repr

/-- Response of `GET /status/:code`: 404 `"Invalid code"`, or the status
payload. -/
inductive StatusResponse where
  | notFound
  | ok (d : StatusData)
deriving DecidableEq, Repr

/-- The `GET /status/:code` handler (src/index.js:224-270): look the code
up case-insensitively, run a fresh ping, store the updated link back,
recompute `activeLinks`, save (the save's result is ignored), and respond
from the updated link. Returns `(response, resulting on-disk document,
whether a successful save happened)`. -/
def getStatus (code : String) (disk : LinksData) (ping : PingResult) (now : Nat)
    (saveOk : Bool) : StatusResponse × LinksData × Bool :=
  match disk.links.findIdx? (fun l => l.code == strToUpper code) with
  | none => (.notFound, disk, false)
  | some linkIndex =>
    match disk.links[linkIndex]? with
    | none => (.notFound, disk, false)  -- unreachable: findIdx? yields a valid index
    | some link =>
      let updated := updateLinkStatus link ping
      let links2 := disk.links.set linkIndex updated
      let stats2 : Stats := { disk.stats with activeLinks := countOnline links2 }
      let w := writeLinksData { links := links2, stats := stats2 } now saveOk
      let payload : StatusData :=
        { code := updated.code, url := updated.url, status := updated.status,
          responseTime := updated.responseTime, statusCode := updated.statusCode,
          lastCheck := updated.lastCheck, lastSuccess := updated.lastSuccess,
          failCount := updated.failCount,
          totalChecks := if updated.totalChecks = 0 then 1 else updated.totalChecks,
          successRate := successRate updated.totalChecks updated.failCount }
      (.ok payload, if w.1 then w.2 else disk, w.1)

/-- The per-link success rates of the `GET /all` summary
(src/index.js:276-291), keeping only the numeric rate. -/
def allSuccessRates (disk : LinksData) : List Int :=
  disk.links.map fun link => successRate link.totalChecks link.failCount

/-- Response of `DELETE /delete/:code`: 404 `"Invalid code"`, or the
deleted link's URL. -/
inductive DeleteResponse where
  | notFound
  | ok (deletedUrl : String)
deriving DecidableEq, Repr

/-- The `DELETE /delete/:code` handler (src/index.js:310-328): find the
code case-insensitively, splice the link out, recompute both stats, save
(the save's result is ignored), respond with the removed URL. -/
def deleteLink (code : String) (disk : LinksData) (now : Nat) (saveOk : Bool) :
    DeleteResponse × LinksData × Bool :=
  match disk.links.findIdx? (fun l => l.code == strToUpper code) with
  | none => (.notFound, disk, false)
  | some idx =>
    match disk.links[idx]? with
    | none => (.notFound, disk, false)  -- unreachable: findIdx? yields a valid index
    | some removed =>
      let links2 := disk.links.eraseIdx idx
      let stats2 : Stats :=
        { disk.stats with
          totalLinks := links2.length, activeLinks := countOnline links2 }
      let w := writeLinksData { links := links2, stats := stats2 } now saveOk
      (.ok removed.url, if w.1 then w.2 else disk, w.1)

/-- The body of the sweep loop of `pingAllLinks` (src/index.js:340-356):
probe link `i`, apply `updateLinkStatus`, then increment `totalChecks`
once more (`updated.totalChecks = (updated.totalChecks || 0) + 1`,
src/index.js:345), and store the result back at index `i`. `pings i` is
the outcome of the i-th probe of this sweep. The source's catch arm
(src/index.js:347-353) is unreachable here because `pingUrl` catches all
request errors itself, so `updateLinkStatus` never throws. -/
def sweepLinks (pings : Nat → PingResult) : Nat → List Endpoint → List Endpoint
  | _, [] => []
  | i, link :: rest =>
      let updated := updateLinkStatus link (pings i)
      { updated with totalChecks := updated.totalChecks + 1 }
        :: sweepLinks pings (i + 1) rest

/-- `pingAllLinks` (src/index.js:332-361): if there are no links, return
without touching the store; otherwise probe every link in order, then
recompute `activeLinks` and save once. Returns the resulting on-disk
document and the number of save attempts made (the save's result is
ignored by the source, so a failed save still counts as attempted but
leaves the disk unchanged). -/
def pingAllLinks (disk : LinksData) (pings : Nat → PingResult) (now : Nat)
    (saveOk : Bool) : LinksData × Nat :=
  if disk.links.length = 0 then (disk, 0)
  else
    let links2 := sweepLinks pings 0 disk.links
    let stats2 : Stats := { disk.stats with activeLinks := countOnline links2 }
    let w := writeLinksData { links := links2, stats := stats2 } now saveOk
    (if w.1 then w.2 else disk, 1)

/-- Whether a `/status` response is the success payload (HTTP 200) rather
than the 404 error. -/
def StatusResponse.isOk : StatusResponse → Bool
  | .notFound => false
  | .ok _ => true

/-- A concrete endpoint used as a test fixture. -/
def sampleLink : Endpoint :=
  { code := "ABC123", url := "https://example.test", addedAt := 0,
    lastCheck := 0, status := "online", responseTime := 10,
    statusCode := 200, failCount := 0, totalChecks := 1 }

/-- A concrete one-endpoint registry document used as a test fixture. -/
def sampleDisk : LinksData :=
  { links := [sampleLink],
    stats := { totalLinks := 1, activeLinks := 1, lastUpdate := 0 } }

/-!
Theorems settling the claims.
-/

/-- C1, counterexample: the claim says any received HTTP response yields
`success = true` and `status = "online"`. A GET that completes with a 404
response refutes it: axios's default `validateStatus` rejects non-2xx, so
`pingUrl` lands in its catch branch and reports `success = false`,
`status = "offline"` — with the response's status code 404 recorded, not
0. -/
theorem pingUrl_404_refutes_any_response_online :
    (pingUrl (.response 404) 10 0).success = false ∧
    (pingUrl (.response 404) 10 0).status = "offline" ∧
    (pingUrl (.response 404) 10 0).statusCode = 404 := by
  decide

/-- C1, amended: the probe reports `success = true` (and `status =
"online"`) iff the HTTP GET completes with a response whose status code
is in [200, 300); any other received response yields `success = false`,
`status = "offline"` with that response's status code recorded; and a
transport-level failure (timeout, connection refused, DNS failure — no
response at all) yields `success = false`, `status = "offline"` with
`statusCode = 0`. -/
theorem pingUrl_success_iff_2xx (outcome : FetchOutcome) (elapsed now : Nat) :
    ((pingUrl outcome elapsed now).success = true ↔
      ∃ s, outcome = .response s ∧ 200 ≤ s ∧ s < 300) ∧
    ((pingUrl outcome elapsed now).status = "online" ↔
      (pingUrl outcome elapsed now).success = true) ∧
    (∀ m, outcome = .noResponse m → (pingUrl outcome elapsed now).statusCode = 0) ∧
    (∀ s, outcome = .response s → (pingUrl outcome elapsed now).statusCode = s) := by
  cases outcome with
  | response s =>
      by_cases h : 200 ≤ s ∧ s < 300 <;> simp [pingUrl, axiosGet, h]
  | noResponse m =>
      simp [pingUrl, axiosGet]

theorem pingUrl_success_iff_2xx_witness :
    (pingUrl (.noResponse "connect ECONNREFUSED") 12 3).statusCode = 0 :=
  (pingUrl_success_iff_2xx (.noResponse "connect ECONNREFUSED") 12 3).2.2.1
    "connect ECONNREFUSED" rfl

/-- C2: the claim says every probe — including a scheduled sweep's —
increments `totalChecks` by exactly 1. The sweep increments it by 2: once
inside `updateLinkStatus` (src/index.js:141) and once more in the loop
body (src/index.js:345). Sweeping a single endpoint that has
`totalChecks = 5` leaves it at 7, not 6. -/
theorem sweep_double_counts_totalChecks :
    ((pingAllLinks
        { links := [{ code := "ABC123", url := "https://example.test",
                      addedAt := 0, lastCheck := 0, status := "online",
                      responseTime := 10, statusCode := 200, failCount := 0,
                      totalChecks := 5 }],
          stats := { totalLinks := 1, activeLinks := 1, lastUpdate := 0 } }
        (fun _ => pingUrl (.response 200) 10 1) 2 true).1.links.map
      fun l => l.totalChecks) = [7] := by
  decide

/-- C6: the probe-outcome mutation rule. `updateLinkStatus` (used by
refresh and sweep) sets `lastCheck`, `status`, `responseTime`,
`statusCode` unconditionally from the ping result; on success it sets
`lastSuccess` and resets `failCount` to 0; on failure it increments
`failCount` and sets `lastError`. The `newLink` built by `/add` obeys
the same rule starting from an implicit zero `failCount`. -/
theorem probe_outcome_mutation_rule (link : Endpoint) (ping : PingResult)
    (code url : String) (now : Nat) :
    ((updateLinkStatus link ping).lastCheck = ping.timestamp ∧
     (updateLinkStatus link ping).status = ping.status ∧
     (updateLinkStatus link ping).responseTime = ping.responseTime ∧
     (updateLinkStatus link ping).statusCode = ping.statusCode ∧
     (ping.success = true →
        (updateLinkStatus link ping).lastSuccess = some ping.timestamp ∧
        (updateLinkStatus link ping).failCount = 0) ∧
     (ping.success = false →
        (updateLinkStatus link ping).failCount = link.failCount + 1 ∧
        (updateLinkStatus link ping).lastError = ping.error)) ∧
    ((newLinkOf code url now ping).lastCheck = ping.timestamp ∧
     (newLinkOf code url now ping).status = ping.status ∧
     (newLinkOf code url now ping).responseTime = ping.responseTime ∧
     (newLinkOf code url now ping).statusCode = ping.statusCode ∧
     (ping.success = true →
        (newLinkOf code url now ping).lastSuccess = some ping.timestamp ∧
        (newLinkOf code url now ping).failCount = 0) ∧
     (ping.success = false →
        (newLinkOf code url now ping).failCount = 0 + 1 ∧
        (newLinkOf code url now ping).lastError = ping.error)) := by
  cases hs : ping.success <;>
    simp [updateLinkStatus, newLinkOf, hs]

theorem probe_outcome_mutation_rule_witness :
    (updateLinkStatus
        { code := "ABC123", url := "https://example.test", addedAt := 0,
          lastCheck := 0, status := "online", responseTime := 10,
          statusCode := 200, failCount := 2, totalChecks := 3 }
        (pingUrl (.noResponse "timeout of 15000ms exceeded") 15000 9)).failCount
      = 3 :=
  ((probe_outcome_mutation_rule
      { code := "ABC123", url := "https://example.test", addedAt := 0,
        lastCheck := 0, status := "online", responseTime := 10,
        statusCode := 200, failCount := 2, totalChecks := 3 }
      (pingUrl (.noResponse "timeout of 15000ms exceeded") 15000 9)
      "XYZ789" "https://example.test" 9).1.2.2.2.2.2 rfl).1

/-- C10: `lastSuccess` is never cleared. A probe's mutation leaves it
exactly at `some timestamp` on success and untouched on failure, so once
set it stays set; `/add` creates it present iff the initial probe
succeeded, so it is absent only for endpoints that never had a successful
probe. -/
theorem lastSuccess_never_cleared (link : Endpoint) (ping : PingResult)
    (code url : String) (now : Nat) :
    ((updateLinkStatus link ping).lastSuccess =
      if ping.success then some ping.timestamp else link.lastSuccess) ∧
    (∀ t, link.lastSuccess = some t → ping.success = false →
      (updateLinkStatus link ping).lastSuccess = some t) ∧
    ((newLinkOf code url now ping).lastSuccess =
      if ping.success then some ping.timestamp else none) := by
  refine ⟨?_, ?_, ?_⟩ <;> cases hs : ping.success <;>
    simp [updateLinkStatus, newLinkOf, hs]

theorem lastSuccess_never_cleared_witness :
    (updateLinkStatus
        { code := "ABC123", url := "https://example.test", addedAt := 0,
          lastCheck := 4, status := "online", responseTime := 10,
          statusCode := 200, failCount := 0, totalChecks := 3,
          lastSuccess := some 4 }
        (pingUrl (.noResponse "getaddrinfo ENOTFOUND") 30 8)).lastSuccess
      = some 4 :=
  (lastSuccess_never_cleared
      { code := "ABC123", url := "https://example.test", addedAt := 0,
        lastCheck := 4, status := "online", responseTime := 10,
        statusCode := 200, failCount := 0, totalChecks := 3,
        lastSuccess := some 4 }
      (pingUrl (.noResponse "getaddrinfo ENOTFOUND") 30 8)
      "XYZ789" "https://example.test" 8).2.1 4 rfl rfl

theorem successRate_eq_spec (totalChecks failCount : Nat) :
    successRate totalChecks failCount = specSuccessRate totalChecks failCount := by
  cases totalChecks with
  | zero => simp [successRate, specSuccessRate]
  | succ n =>
      have h1 : (1 : ℚ) ≤ ((n + 1 : ℕ) : ℚ) := by
        exact_mod_cast Nat.succ_le_succ (Nat.zero_le n)
      simp [successRate, specSuccessRate, max_eq_left h1]

/-- C9: the success rate the reporters compute equals the spec formula
`round((totalChecks - failCount) / totalChecks * 100)` with `totalChecks`
treated as at least 1 for the division when it is zero; `/all` reports
that same formula per link; and an endpoint with `totalChecks = 4`,
`failCount = 1` reports 75. -/
theorem successRate_spec_formula :
    (∀ totalChecks failCount,
      successRate totalChecks failCount = specSuccessRate totalChecks failCount) ∧
    (∀ disk : LinksData, allSuccessRates disk =
      disk.links.map fun l => specSuccessRate l.totalChecks l.failCount) ∧
    successRate 4 1 = 75 := by
  refine ⟨successRate_eq_spec, ?_, ?_⟩
  · intro disk
    simp [allSuccessRates, successRate_eq_spec]
  · norm_num [successRate, round_eq]

theorem isValidUrl_not_empty (u : String) (h : isValidUrl u = true) :
    u.isEmpty = false := by
  cases he : u.isEmpty with
  | false => rfl
  | true =>
      rw [String.isEmpty_iff] at he
      subst he
      exact absurd h (by decide)

/-- C5: registering a URL that is already present fails with the
duplicate error carrying the original endpoint's code, leaves the on-disk
registry unchanged (same document, so same size), and performs no save. -/
theorem add_duplicate_rejected (u : String) (disk : LinksData)
    (draws : List (Fin 6 → Fin 36)) (ping : PingResult) (now : Nat)
    (saveOk : Bool) (existing : Endpoint)
    (hv : isValidUrl u = true)
    (hfind : disk.links.find? (fun l => l.url == strTrim u) = some existing) :
    addLink (some u) disk draws ping now saveOk =
      some (.duplicate existing.code, disk, false) := by
  simp [addLink, isValidUrl_not_empty u hv, hv, hfind]

theorem add_duplicate_rejected_witness :
    addLink (some "https://example.test")
        { links := [{ code := "ABC123", url := "https://example.test",
                      addedAt := 0, lastCheck := 0, status := "online",
                      responseTime := 10, statusCode := 200, failCount := 0,
                      totalChecks := 1 }],
          stats := { totalLinks := 1, activeLinks := 1, lastUpdate := 0 } }
        [] (pingUrl (.response 200) 10 1) 2 true =
      some (.duplicate "ABC123",
        { links := [{ code := "ABC123", url := "https://example.test",
                      addedAt := 0, lastCheck := 0, status := "online",
                      responseTime := 10, statusCode := 200, failCount := 0,
                      totalChecks := 1 }],
          stats := { totalLinks := 1, activeLinks := 1, lastUpdate := 0 } },
        false) :=
  add_duplicate_rejected "https://example.test"
    { links := [{ code := "ABC123", url := "https://example.test",
                  addedAt := 0, lastCheck := 0, status := "online",
                  responseTime := 10, statusCode := 200, failCount := 0,
                  totalChecks := 1 }],
      stats := { totalLinks := 1, activeLinks := 1, lastUpdate := 0 } }
    [] (pingUrl (.response 200) 10 1) 2 true
    { code := "ABC123", url := "https://example.test", addedAt := 0,
      lastCheck := 0, status := "online", responseTime := 10,
      statusCode := 200, failCount := 0, totalChecks := 1 }
    (by decide) (by decide)

/-- C3, counterexample: the claim says every mutating operation surfaces
a server error when the save fails. A refresh (`GET /status/:code`) whose
save fails refutes it: `/status` ignores `writeLinksData`'s return value
(src/index.js:239) and still answers with the success payload. The disk
is left unchanged and no successful save happens. -/
theorem refresh_ignores_save_failure :
    (getStatus "ABC123" sampleDisk (pingUrl (.response 200) 10 1) 9
        false).1.isOk = true ∧
    (getStatus "ABC123" sampleDisk (pingUrl (.response 200) 10 1) 9 false).2 =
      (sampleDisk, false) := by
  constructor
  · decide
  · decide

/-- C3, amended: if the Store save fails, no operation's in-memory effect
is committed — the resulting on-disk document is the one loaded, so the
next load observes the document unchanged — and `/add` surfaces the
server-error (PersistError) result; `/status` (refresh) and `/delete`
(remove), however, ignore the failed save and still report success. -/
theorem save_failure_not_committed :
    (∀ (u : String) (disk : LinksData) (draws : List (Fin 6 → Fin 36))
        (ping : PingResult) (now : Nat) (r : AddResponse) (d : LinksData)
        (s : Bool),
      addLink (some u) disk draws ping now false = some (r, d, s) →
      d = disk ∧ s = false ∧
        (r = .missingUrl ∨ r = .invalidUrl ∨ (∃ c, r = .duplicate c) ∨
          r = .persistError)) ∧
    (∀ (code : String) (disk : LinksData) (ping : PingResult) (now : Nat),
      (getStatus code disk ping now false).2 = (disk, false)) ∧
    (∀ (code : String) (disk : LinksData) (now : Nat),
      (deleteLink code disk now false).2 = (disk, false)) := by
  refine ⟨?_, ?_, ?_⟩
  · intro u disk draws ping now r d s h
    simp only [addLink, writeLinksData, Bool.not_false, if_true] at h
    split at h
    · simp_all
    · split at h
      · simp_all
      · split at h
        · obtain ⟨h1, h2, h3⟩ := by simpa using h
          exact ⟨h2.symm, h3, Or.inr (Or.inr (Or.inl ⟨_, h1.symm⟩))⟩
        · split at h
          · simp at h
          · simp_all
  · intro code disk ping now
    simp only [getStatus, writeLinksData]
    split
    · rfl
    · split
      · rfl
      · simp
  · intro code disk now
    simp only [deleteLink, writeLinksData]
    split
    · rfl
    · split
      · rfl
      · simp

theorem save_failure_not_committed_witness :
    sampleDisk = sampleDisk ∧ false = false ∧
      (AddResponse.persistError = .missingUrl ∨
        AddResponse.persistError = .invalidUrl ∨
        (∃ c, AddResponse.persistError = .duplicate c) ∨
        AddResponse.persistError = .persistError) :=
  save_failure_not_committed.1 "https://other.test" sampleDisk
    [fun _ => 0] (pingUrl (.response 200) 10 1) 5 .persistError sampleDisk
    false (by decide)

theorem sweepLinks_length (pings : Nat → PingResult) (i : Nat)
    (links : List Endpoint) :
    (sweepLinks pings i links).length = links.length := by
  induction links generalizing i with
  | nil => rfl
  | cons l rest ih => simp [sweepLinks, ih]

theorem sweepLinks_getElem (pings : Nat → PingResult) (start i : Nat)
    (links : List Endpoint) :
    (sweepLinks pings start links)[i]? =
      (links[i]?).map fun l =>
        let u := updateLinkStatus l (pings (start + i))
        { u with totalChecks := u.totalChecks + 1 } := by
  induction links generalizing start i with
  | nil => simp [sweepLinks]
  | cons l rest ih =>
      cases i with
      | zero => simp [sweepLinks]
      | succ n =>
          have harith : start + (n + 1) = start + 1 + n := by omega
          simp only [sweepLinks, List.getElem?_cons_succ, harith]
          exact ih (start + 1) n

/-- C4: immediately after every mutation that is persisted, the on-disk
document satisfies `stats.totalLinks = |links|` and `stats.activeLinks =
count of endpoints with status online`, and `stats.lastUpdate` carries
the persist instant. `/add` and `/delete` recompute both counters;
refresh and the sweep recompute `activeLinks` only and keep `totalLinks`,
so for them the loaded document's `totalLinks` is assumed accurate —
which every document this program persists satisfies. -/
theorem stats_invariant_after_persist :
    (∀ (u : String) (disk : LinksData) (draws : List (Fin 6 → Fin 36))
        (ping : PingResult) (now : Nat) (c st : String) (rt : Nat)
        (d : LinksData),
      addLink (some u) disk draws ping now true = some (.ok c st rt, d, true) →
      d.stats.totalLinks = d.links.length ∧
      d.stats.activeLinks = countOnline d.links ∧
      d.stats.lastUpdate = now) ∧
    (∀ (code : String) (disk : LinksData) (ping : PingResult) (now : Nat),
      disk.stats.totalLinks = disk.links.length →
      (getStatus code disk ping now true).2.2 = true →
      ((getStatus code disk ping now true).2.1.stats.totalLinks =
          (getStatus code disk ping now true).2.1.links.length ∧
        (getStatus code disk ping now true).2.1.stats.activeLinks =
          countOnline (getStatus code disk ping now true).2.1.links ∧
        (getStatus code disk ping now true).2.1.stats.lastUpdate = now)) ∧
    (∀ (code : String) (disk : LinksData) (now : Nat),
      (deleteLink code disk now true).2.2 = true →
      ((deleteLink code disk now true).2.1.stats.totalLinks =
          (deleteLink code disk now true).2.1.links.length ∧
        (deleteLink code disk now true).2.1.stats.activeLinks =
          countOnline (deleteLink code disk now true).2.1.links ∧
        (deleteLink code disk now true).2.1.stats.lastUpdate = now)) ∧
    (∀ (disk : LinksData) (pings : Nat → PingResult) (now : Nat),
      disk.stats.totalLinks = disk.links.length →
      disk.links ≠ [] →
      ((pingAllLinks disk pings now true).1.stats.totalLinks =
          (pingAllLinks disk pings now true).1.links.length ∧
        (pingAllLinks disk pings now true).1.stats.activeLinks =
          countOnline (pingAllLinks disk pings now true).1.links ∧
        (pingAllLinks disk pings now true).1.stats.lastUpdate = now)) := by
  refine ⟨?_, ?_, ?_, ?_⟩
  · intro u disk draws ping now c st rt d h
    simp only [addLink, writeLinksData] at h
    split at h
    · simp at h
    · split at h
      · simp at h
      · split at h
        · simp at h
        · split at h
          · simp at h
          · split at h
            · simp at h
            · rw [Option.some.injEq, Prod.mk.injEq, Prod.mk.injEq] at h
              obtain ⟨-, hd, -⟩ := h
              subst hd
              exact ⟨rfl, rfl, rfl⟩
  · intro code disk ping now htot hsaved
    rcases hidx : disk.links.findIdx? (fun l => l.code == strToUpper code)
      with _ | i
    · simp [getStatus, hidx] at hsaved
    · rcases hget : disk.links[i]? with _ | link
      · simp [getStatus, hidx, hget] at hsaved
      · simp [getStatus, writeLinksData, hidx, hget, htot]
  · intro code disk now hsaved
    rcases hidx : disk.links.findIdx? (fun l => l.code == strToUpper code)
      with _ | i
    · simp [deleteLink, hidx] at hsaved
    · rcases hget : disk.links[i]? with _ | link
      · simp [deleteLink, hidx, hget] at hsaved
      · simp [deleteLink, writeLinksData, hidx, hget]
  · intro disk pings now htot hne
    have hlen : ¬disk.links.length = 0 := by
      simpa using fun hz => hne (List.length_eq_zero.mp hz)
    simp [pingAllLinks, writeLinksData, hlen, sweepLinks_length, htot]

theorem stats_invariant_after_persist_witness :
    (deleteLink "ABC123" sampleDisk 5 true).2.1.stats.totalLinks =
        (deleteLink "ABC123" sampleDisk 5 true).2.1.links.length ∧
      (deleteLink "ABC123" sampleDisk 5 true).2.1.stats.activeLinks =
        countOnline (deleteLink "ABC123" sampleDisk 5 true).2.1.links ∧
      (deleteLink "ABC123" sampleDisk 5 true).2.1.stats.lastUpdate = 5 :=
  stats_invariant_after_persist.2.2.1 "ABC123" sampleDisk 5 (by decide)

theorem generateCode_length (r : Fin 6 → Fin 36) :
    (generateCode r).length = 6 := by
  simp [generateCode, String.length]

theorem generateCode_chars (r : Fin 6 → Fin 36) :
    ∀ ch ∈ (generateCode r).data, ch ∈ codeChars := by
  intro ch hch
  simp only [generateCode, List.mem_map] at hch
  obtain ⟨i, _, rfl⟩ := hch
  exact codeChars.get_mem _ _

theorem generateUniqueCode_spec (codes : List String)
    (draws : List (Fin 6 → Fin 36)) (c : String)
    (h : generateUniqueCode codes draws = some c) :
    (∃ r, c = generateCode r) ∧ c ∉ codes := by
  induction draws with
  | nil => simp [generateUniqueCode] at h
  | cons r rest ih =>
      simp only [generateUniqueCode] at h
      split at h
      · exact ih h
      · rename_i hc
        obtain rfl : generateCode r = c := by simpa using h
        refine ⟨⟨r, rfl⟩, ?_⟩
        intro hmem
        simp at hc
        exact hc hmem

/-- C7: a code returned by a successful registration is a 6-character
string over the `[A-Z0-9]` alphabet, and differs from the code of every
endpoint already in the registry: the generation loop keeps drawing until
the candidate collides with none. -/
theorem registration_code_wellformed (u : String) (disk : LinksData)
    (draws : List (Fin 6 → Fin 36)) (ping : PingResult) (now : Nat)
    (saveOk : Bool) (c st : String) (rt : Nat) (d : LinksData) (s : Bool)
    (h : addLink (some u) disk draws ping now saveOk =
      some (.ok c st rt, d, s)) :
    c.length = 6 ∧ (∀ ch ∈ c.data, ch ∈ codeChars) ∧
      ∀ l ∈ disk.links, l.code ≠ c := by
  simp only [addLink, writeLinksData] at h
  split at h
  · simp at h
  · split at h
    · simp at h
    · split at h
      · simp at h
      · split at h
        · simp at h
        · rename_i code0 hgen
          split at h
          · simp at h
          · rw [Option.some.injEq, Prod.mk.injEq, Prod.mk.injEq,
              AddResponse.ok.injEq] at h
            obtain ⟨⟨hc, -, -⟩, -, -⟩ := h
            obtain ⟨⟨r0, hr0⟩, hnotmem⟩ :=
              generateUniqueCode_spec _ _ _ hgen
            subst hc
            subst hr0
            refine ⟨generateCode_length r0, generateCode_chars r0, ?_⟩
            intro l hl hlc
            exact hnotmem (List.mem_map.mpr ⟨l, hl, hlc⟩)

theorem registration_code_wellformed_witness :
    ("AAAAAA" : String).length = 6 :=
  (registration_code_wellformed "https://other.test" sampleDisk
    [fun _ => 0] (pingUrl (.response 200) 10 1) 5 true
    "AAAAAA" "online" 10
    { links := [sampleLink,
        newLinkOf "AAAAAA" "https://other.test" 5 (pingUrl (.response 200) 10 1)],
      stats := { totalLinks := 2, activeLinks := 2, lastUpdate := 5 } }
    true (by decide)).1

/-- C8: a sweep over a document with zero endpoints performs no save and
changes nothing; over a nonempty document it makes exactly one save
attempt, at the end, and the saved document holds every endpoint updated;
and position i of the swept list is computed from endpoint i and the
outcome of probe i alone, whatever the outcomes of every other probe —
so a probe failure for one endpoint never prevents the remaining
endpoints from being probed and recorded. -/
theorem sweep_error_isolation :
    (∀ (disk : LinksData) (pings : Nat → PingResult) (now : Nat)
        (saveOk : Bool),
      disk.links = [] → pingAllLinks disk pings now saveOk = (disk, 0)) ∧
    (∀ (disk : LinksData) (pings : Nat → PingResult) (now : Nat)
        (saveOk : Bool),
      disk.links ≠ [] →
      (pingAllLinks disk pings now saveOk).2 = 1 ∧
      (pingAllLinks disk pings now true).1.links =
        sweepLinks pings 0 disk.links) ∧
    (∀ (pings : Nat → PingResult) (i : Nat) (links : List Endpoint),
      (sweepLinks pings 0 links)[i]? =
        (links[i]?).map fun l =>
          let u := updateLinkStatus l (pings i)
          { u with totalChecks := u.totalChecks + 1 }) := by
  refine ⟨?_, ?_, ?_⟩
  · intro disk pings now saveOk hnil
    simp [pingAllLinks, hnil]
  · intro disk pings now saveOk hne
    have hlen : ¬disk.links.length = 0 := by
      simpa using fun hz => hne (List.length_eq_zero.mp hz)
    constructor
    · simp [pingAllLinks, hlen]
    · simp [pingAllLinks, writeLinksData, hlen]
  · intro pings i links
    simpa using sweepLinks_getElem pings 0 i links

theorem sweep_error_isolation_witness :
    pingAllLinks
        { links := [],
          stats := { totalLinks := 0, activeLinks := 0, lastUpdate := 0 } }
        (fun _ => pingUrl (.response 200) 10 1) 5 true =
      ({ links := [],
         stats := { totalLinks := 0, activeLinks := 0, lastUpdate := 0 } },
        0) :=
  sweep_error_isolation.1
    { links := [],
      stats := { totalLinks := 0, activeLinks := 0, lastUpdate := 0 } }
    (fun _ => pingUrl (.response 200) 10 1) 5 true rfl

end KeepAlive
